import Mathlib

/-!
Verification of the IMO MEPC 83 fuel compliance-cost calculator
(`IMOMEPC83.py`).  The computational core, `calculate_compliance_costs`,
is embedded below over exact rationals (`ℚ`): every per-year quantity is
a rational function of the inputs, the branching reproduces the source's
tiered compliance decision, and the status strings are the source's
literals.
-/

/-- A fuel catalog entry: lower heating value (MJ/t) and attained GFI
(carbon intensity, gCO2eq/MJ).  Mirrors the `{"LHV": _, "GFI": _}`
dictionaries of `PREDEFINED_FUELS`. -/
structure FuelData where
  LHV : ℚ
  GFI : ℚ
deriving Repr, DecidableEq

/-- Pricing assumptions: surplus unit trading price and the user-supplied
Tier 1 / Tier 2 remedial-unit prices for 2031+.  Mirrors the `pricing`
dictionary with keys `surplus`, `t1_user`, `t2_user`. -/
structure Pricing where
  surplus : ℚ
  t1_user : ℚ
  t2_user : ℚ
deriving Repr, DecidableEq

/-- The predefined fuel catalog (`PREDEFINED_FUELS`). -/
def PREDEFINED_FUELS (name : String) : Option FuelData :=
  if name = "HFO" then some ⟨40200, 93.30⟩
  else if name = "LNG" then some ⟨48000, 68.00⟩
  else if name = "B24" then some ⟨41500, 75.00⟩
  else if name = "Bio-Diesel(B100)" then some ⟨37200, 31.00⟩
  else if name = "e-Diesel" then some ⟨44000, 37.00⟩
  else if name = "e-Ammonia" then some ⟨18600, 3.00⟩
  else if name = "bio-Methanol" then some ⟨19900, 5.00⟩
  else none

/-- Reference GFI value (gCO2eq/MJ), `REFERENCE_GFI = 93.3`. -/
def REFERENCE_GFI : ℚ := 93.3

/-- Reduction targets per year, `(base %, direct compliance %)`, from the
`TARGET_REDUCTIONS` dictionary.  The fallback `(0, 0)` is a modelling
artifact for years outside the table; the program only ever looks up the
eight scheduled years. -/
def TARGET_REDUCTIONS (year : ℕ) : ℚ × ℚ :=
  match year with
  | 2028 => (4.0, 17.0)
  | 2029 => (6.0, 19.0)
  | 2030 => (8.0, 21.0)
  | 2031 => (12.4, 25.4)
  | 2032 => (16.8, 29.8)
  | 2033 => (21.2, 34.2)
  | 2034 => (25.6, 38.6)
  | 2035 => (30.0, 43.0)
  | _ => (0, 0)

/-- `YEARS = list(TARGET_REDUCTIONS.keys())`. -/
def YEARS : List ℕ := [2028, 2029, 2030, 2031, 2032, 2033, 2034, 2035]

/-- `T1_FIXED_PRICE = 100.0`. -/
def T1_FIXED_PRICE : ℚ := 100.0

/-- `T2_FIXED_PRICE = 380.0`. -/
def T2_FIXED_PRICE : ℚ := 380.0

/-- `total_energy_mj_y = tonnes_consumed * attained_lhv` (line 49). -/
def total_energy_mj_y (fuel_data : FuelData) (tonnes_consumed : ℚ) : ℚ :=
  tonnes_consumed * fuel_data.LHV

/-- `attained_co2eq_t_y = total_energy_mj_y * attained_gfi / 1_000_000`
(line 50). -/
def attained_co2eq_t_y (fuel_data : FuelData) (tonnes_consumed : ℚ) : ℚ :=
  total_energy_mj_y fuel_data tonnes_consumed * fuel_data.GFI / 1000000

/-- `target_gfi_base = REFERENCE_GFI * (1 - base_reduction_pct / 100.0)`
(line 70). -/
def target_gfi_base (year : ℕ) : ℚ :=
  REFERENCE_GFI * (1 - (TARGET_REDUCTIONS year).1 / 100)

/-- `target_gfi_direct = REFERENCE_GFI * (1 - direct_reduction_pct / 100.0)`
(line 71). -/
def target_gfi_direct (year : ℕ) : ℚ :=
  REFERENCE_GFI * (1 - (TARGET_REDUCTIONS year).2 / 100)

/-- `target_co2_base_t_y = total_energy_mj_y * target_gfi_base / 1_000_000`
(line 72). -/
def target_co2_base_t_y (fuel_data : FuelData) (tonnes_consumed : ℚ) (year : ℕ) : ℚ :=
  total_energy_mj_y fuel_data tonnes_consumed * target_gfi_base year / 1000000

/-- `target_co2_direct_t_y = total_energy_mj_y * target_gfi_direct / 1_000_000`
(line 73). -/
def target_co2_direct_t_y (fuel_data : FuelData) (tonnes_consumed : ℚ) (year : ℕ) : ℚ :=
  total_energy_mj_y fuel_data tonnes_consumed * target_gfi_direct year / 1000000

/-- `t1_price = T1_FIXED_PRICE if year <= 2030 else pricing['t1_user']`
(line 75). -/
def select_t1_price (pricing : Pricing) (year : ℕ) : ℚ :=
  if year ≤ 2030 then T1_FIXED_PRICE else pricing.t1_user

/-- `t2_price = T2_FIXED_PRICE if year <= 2030 else pricing['t2_user']`
(line 76). -/
def select_t2_price (pricing : Pricing) (year : ℕ) : ℚ :=
  if year ≤ 2030 then T2_FIXED_PRICE else pricing.t2_user

/-- One row of the per-year results: the quantities computed in the body
of the `for year in YEARS` loop (lines 67-132), including the local
variables surfaced only in the summary text. -/
structure YearResult where
  year : ℕ
  target_gfi_base : ℚ
  target_gfi_direct : ℚ
  target_co2_base : ℚ
  target_co2_direct : ℚ
  attained_co2eq : ℚ
  t1_price : ℚ
  t2_price : ℚ
  deficit_t1 : ℚ
  deficit_t2 : ℚ
  surplus_co2 : ℚ
  cost_t1 : ℚ
  cost_t2 : ℚ
  revenue_surplus : ℚ
  net_outcome : ℚ
  compliance_status : String
deriving Repr, DecidableEq

/-- The body of the per-year loop (lines 67-132 of the source).  The
deficit/surplus variables start at `0.0` and are assigned in the branch
taken, which the field-wise conditionals reproduce:
`deficit_t1` and the Tier-1 cost are set when
`attained > target_direct`; `deficit_t2` and the Tier-2 cost
additionally require `attained > target_base`; otherwise the surplus and
its revenue are set; the status string follows the same branches,
including the defensive warning of line 98-99; finally
`net_outcome = revenue_surplus - cost_t1 - cost_t2` (line 101). -/
def computeYear (fuel_data : FuelData) (tonnes_consumed : ℚ) (pricing : Pricing)
    (year : ℕ) : YearResult :=
  let a := attained_co2eq_t_y fuel_data tonnes_consumed
  let dir := target_co2_direct_t_y fuel_data tonnes_consumed year
  let base := target_co2_base_t_y fuel_data tonnes_consumed year
  let p1 := select_t1_price pricing year
  let p2 := select_t2_price pricing year
  let d1 := if a > dir then a - dir else 0
  let d2 := if a > dir then (if a > base then a - base else 0) else 0
  let s := if a > dir then 0 else dir - a
  let c1 := d1 * p1
  let c2 := d2 * p2
  let rev := s * pricing.surplus
  { year := year
    target_gfi_base := target_gfi_base year
    target_gfi_direct := target_gfi_direct year
    target_co2_base := base
    target_co2_direct := dir
    attained_co2eq := a
    t1_price := p1
    t2_price := p2
    deficit_t1 := d1
    deficit_t2 := d2
    surplus_co2 := s
    cost_t1 := c1
    cost_t2 := c2
    revenue_surplus := rev
    net_outcome := rev - c1 - c2
    compliance_status :=
      if a > dir then
        if a > base then "Deficit vs Direct Target & Base Target"
        else "Deficit vs Direct Target"
      else
        if a > base then "Surplus vs Direct Target (Warning: Exceeds Base Target)"
        else "Surplus vs Direct Target" }

/-- The error surface of the calculator.  The source signals invalid
input by returning an empty DataFrame and empty summary (line 44-45),
which the caller treats as a rejection of the whole batch; an unknown
catalog name is reported with a warning (line 293).  The specification
names these two rejections `InvalidInputError` and `UnknownFuelError`. -/
inductive CalcError
  | InvalidInputError
  | UnknownFuelError
deriving Repr, DecidableEq

/-- `calculate_compliance_costs` (lines 42-144): the guard
`if not fuel_data or tonnes_consumed <= 0 or fuel_data["LHV"] <= 0`
rejects the whole computation before any arithmetic; otherwise one
`YearResult` per scheduled year, in ascending year order. -/
def calculate_compliance_costs (fuel_data : Option FuelData) (tonnes_consumed : ℚ)
    (pricing : Pricing) : Except CalcError (List YearResult) :=
  match fuel_data with
  | none => Except.error CalcError.InvalidInputError
  | some fd =>
    if tonnes_consumed ≤ 0 ∨ fd.LHV ≤ 0 then Except.error CalcError.InvalidInputError
    else Except.ok (YEARS.map fun year => computeYear fd tonnes_consumed pricing year)

/-- The multi-fuel calculation loop under the Calculate button
(lines 281-293): each selected name is looked up in `PREDEFINED_FUELS`;
a hit is computed and its non-empty result appended; a miss emits a
warning (`UnknownFuelError`) for that fuel and the loop continues.
Returns the tagged per-fuel results and the warnings. -/
def runBatch (fuel_names : List String) (tonnes_consumed : ℚ) (pricing : Pricing) :
    List (String × List YearResult) × List (String × CalcError) :=
  match fuel_names with
  | [] => ([], [])
  | name :: rest =>
    let tail := runBatch rest tonnes_consumed pricing
    match PREDEFINED_FUELS name with
    | some fd =>
      match calculate_compliance_costs (some fd) tonnes_consumed pricing with
      | Except.ok df => ((name, df) :: tail.1, tail.2)
      | Except.error _ => tail
    | none => (tail.1, (name, CalcError.UnknownFuelError) :: tail.2)

/-! ## Helper lemmas -/

/-- The selected Tier-1 price is nonnegative when the user price is. -/
theorem select_t1_price_nonneg (pricing : Pricing) (year : ℕ)
    (h : 0 ≤ pricing.t1_user) : 0 ≤ select_t1_price pricing year := by
  unfold select_t1_price T1_FIXED_PRICE
  split
  · norm_num
  · exact h

/-- The selected Tier-2 price is nonnegative when the user price is. -/
theorem select_t2_price_nonneg (pricing : Pricing) (year : ℕ)
    (h : 0 ≤ pricing.t2_user) : 0 ≤ select_t2_price pricing year := by
  unfold select_t2_price T2_FIXED_PRICE
  split
  · norm_num
  · exact h

/-- Unfolding of the reduction-target table at 2028. -/
theorem TARGET_REDUCTIONS_2028 : TARGET_REDUCTIONS 2028 = (4.0, 17.0) := rfl

/-- Unfolding of the reduction-target table at 2029. -/
theorem TARGET_REDUCTIONS_2029 : TARGET_REDUCTIONS 2029 = (6.0, 19.0) := rfl

/-- Unfolding of the reduction-target table at 2030. -/
theorem TARGET_REDUCTIONS_2030 : TARGET_REDUCTIONS 2030 = (8.0, 21.0) := rfl

/-- Unfolding of the reduction-target table at 2031. -/
theorem TARGET_REDUCTIONS_2031 : TARGET_REDUCTIONS 2031 = (12.4, 25.4) := rfl

/-- Unfolding of the reduction-target table at 2032. -/
theorem TARGET_REDUCTIONS_2032 : TARGET_REDUCTIONS 2032 = (16.8, 29.8) := rfl

/-- Unfolding of the reduction-target table at 2033. -/
theorem TARGET_REDUCTIONS_2033 : TARGET_REDUCTIONS 2033 = (21.2, 34.2) := rfl

/-- Unfolding of the reduction-target table at 2034. -/
theorem TARGET_REDUCTIONS_2034 : TARGET_REDUCTIONS 2034 = (25.6, 38.6) := rfl

/-- Unfolding of the reduction-target table at 2035. -/
theorem TARGET_REDUCTIONS_2035 : TARGET_REDUCTIONS 2035 = (30.0, 43.0) := rfl

/-- For every scheduled year the direct-compliance target GFI is at most
the base target GFI. -/
theorem gfi_direct_le_base (year : ℕ) (hy : year ∈ YEARS) :
    target_gfi_direct year ≤ target_gfi_base year := by
  fin_cases hy <;>
    norm_num [target_gfi_direct, target_gfi_base, REFERENCE_GFI,
      TARGET_REDUCTIONS_2028, TARGET_REDUCTIONS_2029, TARGET_REDUCTIONS_2030,
      TARGET_REDUCTIONS_2031, TARGET_REDUCTIONS_2032, TARGET_REDUCTIONS_2033,
      TARGET_REDUCTIONS_2034, TARGET_REDUCTIONS_2035]

/-- Scaling both target intensities by a nonnegative total energy
preserves their order. -/
theorem target_co2_mono (fuel_data : FuelData) (tonnes_consumed : ℚ) (year : ℕ)
    (hE : 0 ≤ tonnes_consumed * fuel_data.LHV)
    (h : target_gfi_direct year ≤ target_gfi_base year) :
    target_co2_direct_t_y fuel_data tonnes_consumed year
      ≤ target_co2_base_t_y fuel_data tonnes_consumed year := by
  unfold target_co2_direct_t_y target_co2_base_t_y total_energy_mj_y
  have := mul_le_mul_of_nonneg_left h hE
  linarith

/-! ## Claims -/

/-- C1: whenever `tonnes_consumed ≤ 0` or the fuel's LHV is `≤ 0`, the
calculator rejects the whole computation with `InvalidInputError`: no
per-year results are produced for that fuel. -/
theorem invalid_input_short_circuits (fd : FuelData) (tonnes_consumed : ℚ)
    (pricing : Pricing) (h : tonnes_consumed ≤ 0 ∨ fd.LHV ≤ 0) :
    calculate_compliance_costs (some fd) tonnes_consumed pricing
      = Except.error CalcError.InvalidInputError := by
  simp only [calculate_compliance_costs]
  rw [if_pos h]

/-- Witness for C1 at `tonnes_consumed = 0`. -/
theorem invalid_input_short_circuits_witness :
    ((0 : ℚ) ≤ 0 ∨ (⟨19900, 5⟩ : FuelData).LHV ≤ 0) ∧
    calculate_compliance_costs (some ⟨19900, 5⟩) 0 ⟨380, 100, 380⟩
      = Except.error CalcError.InvalidInputError :=
  ⟨Or.inl le_rfl,
   invalid_input_short_circuits ⟨19900, 5⟩ 0 ⟨380, 100, 380⟩ (Or.inl le_rfl)⟩

/-- C3: for every year up to 2030 the tier prices used are the fixed
constants 100.0 and 380.0, whatever the user supplied; from 2031 on they
are exactly the user-supplied prices. -/
theorem tier_price_selection (fd : FuelData) (tonnes_consumed : ℚ)
    (pricing : Pricing) (year : ℕ) :
    (computeYear fd tonnes_consumed pricing year).t1_price
      = (if year ≤ 2030 then (100.0 : ℚ) else pricing.t1_user) ∧
    (computeYear fd tonnes_consumed pricing year).t2_price
      = (if year ≤ 2030 then (380.0 : ℚ) else pricing.t2_user) := by
  constructor <;>
    simp only [computeYear, select_t1_price, select_t2_price,
      T1_FIXED_PRICE, T2_FIXED_PRICE]

/-- C5 counterexample: in the 2028 bio-methanol scenario the surplus
revenue is not $2,738,919.70 as the claim states. -/
theorem scenario_biomethanol_2028_cex :
    (computeYear ⟨19900, 5⟩ 5000 ⟨380, 100, 380⟩ 2028).revenue_surplus ≠ 2738919.70 := by
  norm_num [computeYear, attained_co2eq_t_y, target_co2_direct_t_y, target_co2_base_t_y,
    total_energy_mj_y, target_gfi_direct, target_gfi_base, TARGET_REDUCTIONS_2028,
    REFERENCE_GFI, select_t1_price, select_t2_price, T1_FIXED_PRICE, T2_FIXED_PRICE]

/-- C5 (amended): the 2028 scenario for `lowerHeatingValue = 19900`,
`carbonIntensity = 5.00`, `tonnesConsumed = 5000`, surplus price 380:
total energy 99,500,000 MJ, attained emissions 497.5 t, direct target
intensity 77.439, direct target emissions 7,705.1805 t (≈ 7,705.18), the
surplus branch is taken with surplus 7,207.6805 t (≈ 7,207.68), surplus
revenue exactly $2,738,918.59, and the net outcome equals the surplus
revenue exactly. -/
theorem scenario_biomethanol_2028 :
    total_energy_mj_y ⟨19900, 5⟩ 5000 = 99500000 ∧
    attained_co2eq_t_y ⟨19900, 5⟩ 5000 = 497.5 ∧
    target_gfi_direct 2028 = 77.439 ∧
    target_co2_direct_t_y ⟨19900, 5⟩ 5000 2028 = 7705.1805 ∧
    (computeYear ⟨19900, 5⟩ 5000 ⟨380, 100, 380⟩ 2028).compliance_status
      = "Surplus vs Direct Target" ∧
    (computeYear ⟨19900, 5⟩ 5000 ⟨380, 100, 380⟩ 2028).surplus_co2 = 7207.6805 ∧
    (computeYear ⟨19900, 5⟩ 5000 ⟨380, 100, 380⟩ 2028).revenue_surplus = 2738918.59 ∧
    (computeYear ⟨19900, 5⟩ 5000 ⟨380, 100, 380⟩ 2028).net_outcome
      = (computeYear ⟨19900, 5⟩ 5000 ⟨380, 100, 380⟩ 2028).revenue_surplus := by
  norm_num [computeYear, attained_co2eq_t_y, target_co2_direct_t_y, target_co2_base_t_y,
    total_energy_mj_y, target_gfi_direct, target_gfi_base, TARGET_REDUCTIONS_2028,
    REFERENCE_GFI, select_t1_price, select_t2_price, T1_FIXED_PRICE, T2_FIXED_PRICE]

/-- C6 counterexample: with `LHV = 1`, `GFI = 80`, one tonne, year 2028,
the attained emissions lie strictly between the direct and base targets,
yet the status string is exactly "Deficit vs Direct Target": the source
appends no "(compliant vs base)" suffix in this sub-case. -/
theorem deficit_compliant_base_status_cex :
    target_co2_direct_t_y ⟨1, 80⟩ 1 2028 < attained_co2eq_t_y ⟨1, 80⟩ 1 ∧
    attained_co2eq_t_y ⟨1, 80⟩ 1 ≤ target_co2_base_t_y ⟨1, 80⟩ 1 2028 ∧
    (computeYear ⟨1, 80⟩ 1 ⟨380, 100, 380⟩ 2028).compliance_status
      = "Deficit vs Direct Target" ∧
    (computeYear ⟨1, 80⟩ 1 ⟨380, 100, 380⟩ 2028).compliance_status
      ≠ "Deficit vs Direct Target (compliant vs base)" ∧
    (computeYear ⟨1, 80⟩ 1 ⟨380, 100, 380⟩ 2028).cost_t2 = 0 := by
  have hs : (computeYear ⟨1, 80⟩ 1 ⟨380, 100, 380⟩ 2028).compliance_status
      = "Deficit vs Direct Target" := by
    norm_num [computeYear, attained_co2eq_t_y, target_co2_direct_t_y, target_co2_base_t_y,
      total_energy_mj_y, target_gfi_direct, target_gfi_base, TARGET_REDUCTIONS_2028,
      REFERENCE_GFI]
  refine ⟨?_, ?_, hs, ?_, ?_⟩
  · norm_num [attained_co2eq_t_y, target_co2_direct_t_y, total_energy_mj_y,
      target_gfi_direct, TARGET_REDUCTIONS_2028, REFERENCE_GFI]
  · norm_num [attained_co2eq_t_y, target_co2_base_t_y, total_energy_mj_y,
      target_gfi_base, TARGET_REDUCTIONS_2028, REFERENCE_GFI]
  · rw [hs]
    decide
  · norm_num [computeYear, attained_co2eq_t_y, target_co2_direct_t_y, target_co2_base_t_y,
      total_energy_mj_y, target_gfi_direct, target_gfi_base, TARGET_REDUCTIONS_2028,
      REFERENCE_GFI, select_t2_price, T2_FIXED_PRICE]

/-- C6 (amended): in the deficit case, when the attained emissions do not
exceed the base target, the status string is exactly
"Deficit vs Direct Target" (no suffix is appended) and the Tier-2
deficit and cost stay zero. -/
theorem deficit_compliant_base_status (fd : FuelData) (tonnes_consumed : ℚ)
    (pricing : Pricing) (year : ℕ)
    (h1 : target_co2_direct_t_y fd tonnes_consumed year
            < attained_co2eq_t_y fd tonnes_consumed)
    (h2 : attained_co2eq_t_y fd tonnes_consumed
            ≤ target_co2_base_t_y fd tonnes_consumed year) :
    (computeYear fd tonnes_consumed pricing year).compliance_status
      = "Deficit vs Direct Target" ∧
    (computeYear fd tonnes_consumed pricing year).deficit_t2 = 0 ∧
    (computeYear fd tonnes_consumed pricing year).cost_t2 = 0 := by
  have hnb : ¬ (target_co2_base_t_y fd tonnes_consumed year
      < attained_co2eq_t_y fd tonnes_consumed) := not_lt.mpr h2
  refine ⟨?_, ?_, ?_⟩ <;> simp [computeYear, h1, hnb]

/-- Witness for C6 (amended) at the counterexample input. -/
theorem deficit_compliant_base_status_witness :
    (target_co2_direct_t_y ⟨1, 80⟩ 1 2028 < attained_co2eq_t_y ⟨1, 80⟩ 1 ∧
     attained_co2eq_t_y ⟨1, 80⟩ 1 ≤ target_co2_base_t_y ⟨1, 80⟩ 1 2028) ∧
    ((computeYear ⟨1, 80⟩ 1 ⟨100, 50, 200⟩ 2028).compliance_status
       = "Deficit vs Direct Target" ∧
     (computeYear ⟨1, 80⟩ 1 ⟨100, 50, 200⟩ 2028).deficit_t2 = 0 ∧
     (computeYear ⟨1, 80⟩ 1 ⟨100, 50, 200⟩ 2028).cost_t2 = 0) :=
  ⟨⟨by norm_num [attained_co2eq_t_y, target_co2_direct_t_y, total_energy_mj_y,
      target_gfi_direct, TARGET_REDUCTIONS_2028, REFERENCE_GFI],
    by norm_num [attained_co2eq_t_y, target_co2_base_t_y, total_energy_mj_y,
      target_gfi_base, TARGET_REDUCTIONS_2028, REFERENCE_GFI]⟩,
   deficit_compliant_base_status ⟨1, 80⟩ 1 ⟨100, 50, 200⟩ 2028
    (by norm_num [attained_co2eq_t_y, target_co2_direct_t_y, total_energy_mj_y,
      target_gfi_direct, TARGET_REDUCTIONS_2028, REFERENCE_GFI])
    (by norm_num [attained_co2eq_t_y, target_co2_base_t_y, total_energy_mj_y,
      target_gfi_base, TARGET_REDUCTIONS_2028, REFERENCE_GFI])⟩

/-- C2: for every year the net outcome equals
`surplusRevenue - tier1Cost - tier2Cost` exactly; and with nonnegative
price assumptions it is exactly zero only when all three terms are
zero. -/
theorem net_outcome_decomposition (fd : FuelData) (tonnes_consumed : ℚ)
    (pricing : Pricing) (year : ℕ)
    (h1 : 0 ≤ pricing.surplus) (h2 : 0 ≤ pricing.t1_user) (h3 : 0 ≤ pricing.t2_user) :
    (computeYear fd tonnes_consumed pricing year).net_outcome
      = (computeYear fd tonnes_consumed pricing year).revenue_surplus
        - (computeYear fd tonnes_consumed pricing year).cost_t1
        - (computeYear fd tonnes_consumed pricing year).cost_t2 ∧
    ((computeYear fd tonnes_consumed pricing year).net_outcome = 0 →
      (computeYear fd tonnes_consumed pricing year).revenue_surplus = 0 ∧
      (computeYear fd tonnes_consumed pricing year).cost_t1 = 0 ∧
      (computeYear fd tonnes_consumed pricing year).cost_t2 = 0) := by
  have hp1 := select_t1_price_nonneg pricing year h2
  have hp2 := select_t2_price_nonneg pricing year h3
  simp only [computeYear]
  constructor
  · trivial
  · intro h0
    set a := attained_co2eq_t_y fd tonnes_consumed with hsa
    set dir := target_co2_direct_t_y fd tonnes_consumed year with hsd
    set base := target_co2_base_t_y fd tonnes_consumed year with hsb
    set P1 := select_t1_price pricing year with hsp1
    set P2 := select_t2_price pricing year with hsp2
    split_ifs at h0 ⊢ with hA hB
    · have n1 : 0 ≤ (a - dir) * P1 := mul_nonneg (by linarith) hp1
      have n2 : 0 ≤ (a - base) * P2 := mul_nonneg (by linarith) hp2
      refine ⟨by ring, by linarith, by linarith⟩
    · have n1 : 0 ≤ (a - dir) * P1 := mul_nonneg (by linarith) hp1
      refine ⟨by ring, by linarith, by ring⟩
    · have n0 : 0 ≤ (dir - a) * pricing.surplus := by
        have : a ≤ dir := not_lt.mp hA
        exact mul_nonneg (by linarith) h1
      refine ⟨by linarith, by ring, by ring⟩

/-- Witness for C2 at the HFO scenario, year 2028. -/
theorem net_outcome_decomposition_witness :
    ((0 : ℚ) ≤ (⟨380, 100, 380⟩ : Pricing).surplus ∧
     (0 : ℚ) ≤ (⟨380, 100, 380⟩ : Pricing).t1_user ∧
     (0 : ℚ) ≤ (⟨380, 100, 380⟩ : Pricing).t2_user) ∧
    ((computeYear ⟨40200, 93.30⟩ 5000 ⟨380, 100, 380⟩ 2028).net_outcome
       = (computeYear ⟨40200, 93.30⟩ 5000 ⟨380, 100, 380⟩ 2028).revenue_surplus
         - (computeYear ⟨40200, 93.30⟩ 5000 ⟨380, 100, 380⟩ 2028).cost_t1
         - (computeYear ⟨40200, 93.30⟩ 5000 ⟨380, 100, 380⟩ 2028).cost_t2 ∧
     ((computeYear ⟨40200, 93.30⟩ 5000 ⟨380, 100, 380⟩ 2028).net_outcome = 0 →
       (computeYear ⟨40200, 93.30⟩ 5000 ⟨380, 100, 380⟩ 2028).revenue_surplus = 0 ∧
       (computeYear ⟨40200, 93.30⟩ 5000 ⟨380, 100, 380⟩ 2028).cost_t1 = 0 ∧
       (computeYear ⟨40200, 93.30⟩ 5000 ⟨380, 100, 380⟩ 2028).cost_t2 = 0)) :=
  ⟨⟨by norm_num, by norm_num, by norm_num⟩,
   net_outcome_decomposition ⟨40200, 93.30⟩ 5000 ⟨380, 100, 380⟩ 2028
    (by norm_num) (by norm_num) (by norm_num)⟩

/-- C4 counterexample: with `LHV = 1`, `GFI = 77.439`, one tonne, year
2028, the attained emissions equal the direct target exactly; then
`tier1Deficit = 0` and `surplus = 0`, so neither the deficit state
(`tier1Deficit > 0` with `surplus = 0`) nor the surplus state
(`surplus > 0` with both deficits `= 0`) holds — the claimed
"exactly one" fails at the boundary. -/
theorem deficit_surplus_exclusive_cex :
    ¬ (((computeYear ⟨1, 77.439⟩ 1 ⟨380, 100, 380⟩ 2028).deficit_t1 > 0 ∧
        (computeYear ⟨1, 77.439⟩ 1 ⟨380, 100, 380⟩ 2028).surplus_co2 = 0) ∨
       ((computeYear ⟨1, 77.439⟩ 1 ⟨380, 100, 380⟩ 2028).surplus_co2 > 0 ∧
        (computeYear ⟨1, 77.439⟩ 1 ⟨380, 100, 380⟩ 2028).deficit_t1 = 0 ∧
        (computeYear ⟨1, 77.439⟩ 1 ⟨380, 100, 380⟩ 2028).deficit_t2 = 0)) := by
  have hd1 : (computeYear ⟨1, 77.439⟩ 1 ⟨380, 100, 380⟩ 2028).deficit_t1 = 0 := by
    norm_num [computeYear, attained_co2eq_t_y, target_co2_direct_t_y, target_co2_base_t_y,
      total_energy_mj_y, target_gfi_direct, target_gfi_base, TARGET_REDUCTIONS_2028,
      REFERENCE_GFI]
  have hs : (computeYear ⟨1, 77.439⟩ 1 ⟨380, 100, 380⟩ 2028).surplus_co2 = 0 := by
    norm_num [computeYear, attained_co2eq_t_y, target_co2_direct_t_y, target_co2_base_t_y,
      total_energy_mj_y, target_gfi_direct, target_gfi_base, TARGET_REDUCTIONS_2028,
      REFERENCE_GFI]
  rw [hd1, hs]
  rintro (⟨h, -⟩ | ⟨h, -⟩) <;> exact lt_irrefl 0 h

/-- C4 (amended): `tier1Deficit` and `surplus` are never both nonzero;
when the attained emissions differ from the direct target, exactly one
of the deficit state (`tier1Deficit > 0`, `surplus = 0`) and the surplus
state (`surplus > 0`, both deficits `= 0`) holds; when they are equal,
`tier1Deficit`, `tier2Deficit` and `surplus` are all zero (and neither
state holds). -/
theorem deficit_surplus_exclusive (fd : FuelData) (tonnes_consumed : ℚ)
    (pricing : Pricing) (year : ℕ) :
    (¬ ((computeYear fd tonnes_consumed pricing year).deficit_t1 > 0 ∧
        (computeYear fd tonnes_consumed pricing year).surplus_co2 > 0)) ∧
    ((computeYear fd tonnes_consumed pricing year).attained_co2eq
        ≠ (computeYear fd tonnes_consumed pricing year).target_co2_direct →
      (((computeYear fd tonnes_consumed pricing year).deficit_t1 > 0 ∧
        (computeYear fd tonnes_consumed pricing year).surplus_co2 = 0) ∨
       ((computeYear fd tonnes_consumed pricing year).surplus_co2 > 0 ∧
        (computeYear fd tonnes_consumed pricing year).deficit_t1 = 0 ∧
        (computeYear fd tonnes_consumed pricing year).deficit_t2 = 0)) ∧
      ¬ (((computeYear fd tonnes_consumed pricing year).deficit_t1 > 0 ∧
          (computeYear fd tonnes_consumed pricing year).surplus_co2 = 0) ∧
         ((computeYear fd tonnes_consumed pricing year).surplus_co2 > 0 ∧
          (computeYear fd tonnes_consumed pricing year).deficit_t1 = 0 ∧
          (computeYear fd tonnes_consumed pricing year).deficit_t2 = 0))) ∧
    ((computeYear fd tonnes_consumed pricing year).attained_co2eq
        = (computeYear fd tonnes_consumed pricing year).target_co2_direct →
      (computeYear fd tonnes_consumed pricing year).deficit_t1 = 0 ∧
      (computeYear fd tonnes_consumed pricing year).deficit_t2 = 0 ∧
      (computeYear fd tonnes_consumed pricing year).surplus_co2 = 0) := by
  simp only [computeYear]
  set a := attained_co2eq_t_y fd tonnes_consumed with hsa
  set dir := target_co2_direct_t_y fd tonnes_consumed year with hsd
  set base := target_co2_base_t_y fd tonnes_consumed year with hsb
  split_ifs with hA hB
  · refine ⟨?_, ?_, ?_⟩
    · rintro ⟨-, h⟩
      exact lt_irrefl 0 h
    · intro _
      refine ⟨Or.inl ⟨by linarith, rfl⟩, ?_⟩
      rintro ⟨-, h, -⟩
      exact lt_irrefl 0 h
    · intro heq
      rw [heq] at hA
      exact absurd hA (lt_irrefl dir)
  · refine ⟨?_, ?_, ?_⟩
    · rintro ⟨-, h⟩
      exact lt_irrefl 0 h
    · intro _
      refine ⟨Or.inl ⟨by linarith, rfl⟩, ?_⟩
      rintro ⟨-, h, -⟩
      exact lt_irrefl 0 h
    · intro heq
      rw [heq] at hA
      exact absurd hA (lt_irrefl dir)
  · refine ⟨?_, ?_, ?_⟩
    · rintro ⟨h, -⟩
      exact lt_irrefl 0 h
    · intro hne
      have hlt : a < dir := lt_of_le_of_ne (not_lt.mp hA) hne
      refine ⟨Or.inr ⟨by linarith, rfl, rfl⟩, ?_⟩
      rintro ⟨⟨h, -⟩, -⟩
      exact lt_irrefl 0 h
    · intro heq
      exact ⟨rfl, rfl, by rw [heq]; ring⟩

/-- Witness for C4 (amended) at the HFO scenario, year 2028 (a strict
deficit year, so the first state holds). -/
theorem deficit_surplus_exclusive_witness :
    (¬ ((computeYear ⟨40200, 93.30⟩ 5000 ⟨380, 100, 380⟩ 2028).deficit_t1 > 0 ∧
        (computeYear ⟨40200, 93.30⟩ 5000 ⟨380, 100, 380⟩ 2028).surplus_co2 > 0)) ∧
    ((computeYear ⟨40200, 93.30⟩ 5000 ⟨380, 100, 380⟩ 2028).attained_co2eq
        ≠ (computeYear ⟨40200, 93.30⟩ 5000 ⟨380, 100, 380⟩ 2028).target_co2_direct →
      (((computeYear ⟨40200, 93.30⟩ 5000 ⟨380, 100, 380⟩ 2028).deficit_t1 > 0 ∧
        (computeYear ⟨40200, 93.30⟩ 5000 ⟨380, 100, 380⟩ 2028).surplus_co2 = 0) ∨
       ((computeYear ⟨40200, 93.30⟩ 5000 ⟨380, 100, 380⟩ 2028).surplus_co2 > 0 ∧
        (computeYear ⟨40200, 93.30⟩ 5000 ⟨380, 100, 380⟩ 2028).deficit_t1 = 0 ∧
        (computeYear ⟨40200, 93.30⟩ 5000 ⟨380, 100, 380⟩ 2028).deficit_t2 = 0)) ∧
      ¬ (((computeYear ⟨40200, 93.30⟩ 5000 ⟨380, 100, 380⟩ 2028).deficit_t1 > 0 ∧
          (computeYear ⟨40200, 93.30⟩ 5000 ⟨380, 100, 380⟩ 2028).surplus_co2 = 0) ∧
         ((computeYear ⟨40200, 93.30⟩ 5000 ⟨380, 100, 380⟩ 2028).surplus_co2 > 0 ∧
          (computeYear ⟨40200, 93.30⟩ 5000 ⟨380, 100, 380⟩ 2028).deficit_t1 = 0 ∧
          (computeYear ⟨40200, 93.30⟩ 5000 ⟨380, 100, 380⟩ 2028).deficit_t2 = 0))) ∧
    ((computeYear ⟨40200, 93.30⟩ 5000 ⟨380, 100, 380⟩ 2028).attained_co2eq
        = (computeYear ⟨40200, 93.30⟩ 5000 ⟨380, 100, 380⟩ 2028).target_co2_direct →
      (computeYear ⟨40200, 93.30⟩ 5000 ⟨380, 100, 380⟩ 2028).deficit_t1 = 0 ∧
      (computeYear ⟨40200, 93.30⟩ 5000 ⟨380, 100, 380⟩ 2028).deficit_t2 = 0 ∧
      (computeYear ⟨40200, 93.30⟩ 5000 ⟨380, 100, 380⟩ 2028).surplus_co2 = 0) :=
  deficit_surplus_exclusive ⟨40200, 93.30⟩ 5000 ⟨380, 100, 380⟩ 2028

/-- C7: holding LHV, consumption, pricing and the year fixed, a larger
carbon intensity never decreases either deficit and never increases the
surplus. -/
theorem carbon_intensity_monotone (LHV tonnes_consumed : ℚ) (pricing : Pricing)
    (year : ℕ) (c c' : ℚ) (hL : 0 < LHV) (ht : 0 < tonnes_consumed) (hc : c < c') :
    (computeYear ⟨LHV, c⟩ tonnes_consumed pricing year).deficit_t1
      ≤ (computeYear ⟨LHV, c'⟩ tonnes_consumed pricing year).deficit_t1 ∧
    (computeYear ⟨LHV, c⟩ tonnes_consumed pricing year).deficit_t2
      ≤ (computeYear ⟨LHV, c'⟩ tonnes_consumed pricing year).deficit_t2 ∧
    (computeYear ⟨LHV, c'⟩ tonnes_consumed pricing year).surplus_co2
      ≤ (computeYear ⟨LHV, c⟩ tonnes_consumed pricing year).surplus_co2 := by
  have hE : 0 ≤ tonnes_consumed * LHV := le_of_lt (mul_pos ht hL)
  have key : attained_co2eq_t_y ⟨LHV, c⟩ tonnes_consumed
      ≤ attained_co2eq_t_y ⟨LHV, c'⟩ tonnes_consumed := by
    show tonnes_consumed * LHV * c / 1000000 ≤ tonnes_consumed * LHV * c' / 1000000
    have := mul_le_mul_of_nonneg_left hc.le hE
    linarith
  have hdir : target_co2_direct_t_y ⟨LHV, c⟩ tonnes_consumed year
      = target_co2_direct_t_y ⟨LHV, c'⟩ tonnes_consumed year := rfl
  have hbase : target_co2_base_t_y ⟨LHV, c⟩ tonnes_consumed year
      = target_co2_base_t_y ⟨LHV, c'⟩ tonnes_consumed year := rfl
  simp only [computeYear]
  rw [← hdir, ← hbase]
  set a1 := attained_co2eq_t_y ⟨LHV, c⟩ tonnes_consumed
  set a2 := attained_co2eq_t_y ⟨LHV, c'⟩ tonnes_consumed
  set dir := target_co2_direct_t_y ⟨LHV, c⟩ tonnes_consumed year
  set base := target_co2_base_t_y ⟨LHV, c⟩ tonnes_consumed year
  split_ifs <;> exact ⟨by linarith, by linarith, by linarith⟩

/-- Witness for C7 with `LHV = 1`, one tonne, intensities `0 < 1`,
year 2028. -/
theorem carbon_intensity_monotone_witness :
    ((0 : ℚ) < 1 ∧ (0 : ℚ) < 1 ∧ (0 : ℚ) < 1) ∧
    ((computeYear ⟨1, 0⟩ 1 ⟨380, 100, 380⟩ 2028).deficit_t1
       ≤ (computeYear ⟨1, 1⟩ 1 ⟨380, 100, 380⟩ 2028).deficit_t1 ∧
     (computeYear ⟨1, 0⟩ 1 ⟨380, 100, 380⟩ 2028).deficit_t2
       ≤ (computeYear ⟨1, 1⟩ 1 ⟨380, 100, 380⟩ 2028).deficit_t2 ∧
     (computeYear ⟨1, 1⟩ 1 ⟨380, 100, 380⟩ 2028).surplus_co2
       ≤ (computeYear ⟨1, 0⟩ 1 ⟨380, 100, 380⟩ 2028).surplus_co2) :=
  ⟨⟨by norm_num, by norm_num, by norm_num⟩,
   carbon_intensity_monotone 1 1 ⟨380, 100, 380⟩ 2028 0 1
    (by norm_num) (by norm_num) (by norm_num)⟩

/-- C8: for every scheduled year the direct reduction percentage exceeds
the base one, the direct target intensity is at most the base target
intensity, the target emissions are ordered the same way for any
nonnegative total energy, and both percentage columns strictly increase
year over year. -/
theorem schedule_target_ordering (year : ℕ) (hy : year ∈ YEARS) (fd : FuelData)
    (tonnes_consumed : ℚ) (hE : 0 ≤ tonnes_consumed * fd.LHV) :
    (TARGET_REDUCTIONS year).1 < (TARGET_REDUCTIONS year).2 ∧
    target_gfi_direct year ≤ target_gfi_base year ∧
    target_co2_direct_t_y fd tonnes_consumed year
      ≤ target_co2_base_t_y fd tonnes_consumed year ∧
    List.Chain' (fun x y => x < y) (List.map (fun z => (TARGET_REDUCTIONS z).1) YEARS) ∧
    List.Chain' (fun x y => x < y) (List.map (fun z => (TARGET_REDUCTIONS z).2) YEARS) := by
  have hgfi := gfi_direct_le_base year hy
  refine ⟨?_, hgfi, target_co2_mono fd tonnes_consumed year hE hgfi, ?_, ?_⟩
  · fin_cases hy <;>
      norm_num [TARGET_REDUCTIONS_2028, TARGET_REDUCTIONS_2029, TARGET_REDUCTIONS_2030,
        TARGET_REDUCTIONS_2031, TARGET_REDUCTIONS_2032, TARGET_REDUCTIONS_2033,
        TARGET_REDUCTIONS_2034, TARGET_REDUCTIONS_2035]
  · norm_num [YEARS, TARGET_REDUCTIONS_2028, TARGET_REDUCTIONS_2029, TARGET_REDUCTIONS_2030,
      TARGET_REDUCTIONS_2031, TARGET_REDUCTIONS_2032, TARGET_REDUCTIONS_2033,
      TARGET_REDUCTIONS_2034, TARGET_REDUCTIONS_2035, List.chain'_cons]
  · norm_num [YEARS, TARGET_REDUCTIONS_2028, TARGET_REDUCTIONS_2029, TARGET_REDUCTIONS_2030,
      TARGET_REDUCTIONS_2031, TARGET_REDUCTIONS_2032, TARGET_REDUCTIONS_2033,
      TARGET_REDUCTIONS_2034, TARGET_REDUCTIONS_2035, List.chain'_cons]

/-- Witness for C8 at year 2028 with unit consumption and LHV. -/
theorem schedule_target_ordering_witness :
    ((2028 ∈ YEARS) ∧ (0 : ℚ) ≤ 1 * (⟨1, 0⟩ : FuelData).LHV) ∧
    ((TARGET_REDUCTIONS 2028).1 < (TARGET_REDUCTIONS 2028).2 ∧
     target_gfi_direct 2028 ≤ target_gfi_base 2028 ∧
     target_co2_direct_t_y ⟨1, 0⟩ 1 2028 ≤ target_co2_base_t_y ⟨1, 0⟩ 1 2028 ∧
     List.Chain' (fun x y => x < y) (List.map (fun z => (TARGET_REDUCTIONS z).1) YEARS) ∧
     List.Chain' (fun x y => x < y) (List.map (fun z => (TARGET_REDUCTIONS z).2) YEARS)) :=
  ⟨⟨by decide, by norm_num⟩,
   schedule_target_ordering 2028 (by decide) ⟨1, 0⟩ 1 (by norm_num)⟩

/-- C10: for valid inputs (`carbonIntensity ≥ 0`, positive consumption
and LHV) and any scheduled year, the defensive warning suffix of the
surplus branch is unreachable: the status is never
"Surplus vs Direct Target (Warning: Exceeds Base Target)". -/
theorem surplus_warning_unreachable (fd : FuelData) (tonnes_consumed : ℚ)
    (pricing : Pricing) (year : ℕ) (hy : year ∈ YEARS)
    (_hg : 0 ≤ fd.GFI) (ht : 0 < tonnes_consumed) (hL : 0 < fd.LHV) :
    (computeYear fd tonnes_consumed pricing year).compliance_status
      ≠ "Surplus vs Direct Target (Warning: Exceeds Base Target)" := by
  have hdb : target_co2_direct_t_y fd tonnes_consumed year
      ≤ target_co2_base_t_y fd tonnes_consumed year :=
    target_co2_mono fd tonnes_consumed year (le_of_lt (mul_pos ht hL))
      (gfi_direct_le_base year hy)
  simp only [computeYear]
  split_ifs with hA hB hB'
  · decide
  · decide
  · exact absurd hB' (not_lt.mpr (le_trans (not_lt.mp hA) hdb))
  · decide

/-- Witness for C10 at the HFO scenario, year 2028. -/
theorem surplus_warning_unreachable_witness :
    ((2028 ∈ YEARS) ∧ (0 : ℚ) ≤ (⟨40200, 93.30⟩ : FuelData).GFI ∧
     (0 : ℚ) < 5000 ∧ (0 : ℚ) < (⟨40200, 93.30⟩ : FuelData).LHV) ∧
    (computeYear ⟨40200, 93.30⟩ 5000 ⟨380, 100, 380⟩ 2028).compliance_status
      ≠ "Surplus vs Direct Target (Warning: Exceeds Base Target)" :=
  ⟨⟨by decide, by norm_num, by norm_num, by norm_num⟩,
   surplus_warning_unreachable ⟨40200, 93.30⟩ 5000 ⟨380, 100, 380⟩ 2028 (by decide)
    (by norm_num) (by norm_num) (by norm_num)⟩

/-- C9: in the multi-fuel loop, a name missing from the catalog is
reported as an `UnknownFuelError` warning and skipped, while every other
fuel in the batch is computed exactly as if the unknown name were
absent. -/
theorem unknown_fuel_skipped (pre post : List String) (name : String)
    (tonnes_consumed : ℚ) (pricing : Pricing)
    (h : PREDEFINED_FUELS name = none) :
    (runBatch (pre ++ name :: post) tonnes_consumed pricing).1
      = (runBatch (pre ++ post) tonnes_consumed pricing).1 ∧
    (name, CalcError.UnknownFuelError)
      ∈ (runBatch (pre ++ name :: post) tonnes_consumed pricing).2 := by
  induction pre with
  | nil =>
    simp only [List.nil_append, runBatch, h]
    exact ⟨trivial, List.mem_cons_self _ _⟩
  | cons head tail ih =>
    simp only [List.cons_append, runBatch]
    cases hh : PREDEFINED_FUELS head with
    | none =>
      simp only [hh]
      exact ⟨ih.1, List.mem_cons_of_mem _ ih.2⟩
    | some fd =>
      simp only [hh]
      cases hc : calculate_compliance_costs (some fd) tonnes_consumed pricing with
      | ok df =>
        simp only [hc]
        exact ⟨congrArg (List.cons (head, df)) ih.1, ih.2⟩
      | error e =>
        simp only [hc]
        exact ih

/-- Witness for C9: "XYZ" is not in the catalog; inserted between HFO
and LNG it is skipped with a warning and the other two fuels are
unaffected. -/
theorem unknown_fuel_skipped_witness :
    PREDEFINED_FUELS "XYZ" = none ∧
    ((runBatch (["HFO"] ++ "XYZ" :: ["LNG"]) 5000 ⟨380, 100, 380⟩).1
       = (runBatch (["HFO"] ++ ["LNG"]) 5000 ⟨380, 100, 380⟩).1 ∧
     ("XYZ", CalcError.UnknownFuelError)
       ∈ (runBatch (["HFO"] ++ "XYZ" :: ["LNG"]) 5000 ⟨380, 100, 380⟩).2) :=
  ⟨by rfl,
   unknown_fuel_skipped ["HFO"] ["LNG"] "XYZ" 5000 ⟨380, 100, 380⟩ (by rfl)⟩
